import Mathlib

/-!
Verification development for the window-lifecycle subsystem of the
AuroraView Maya outliner (`src/maya_integration/`).

The Python source is shallowly embedded as follows:

* `Dialog` models the Qt `QDialog` held in `MayaOutliner.dialog` as the
  lifecycle code observes it: whether it is currently visible, and whether
  its `isVisible()` / `close()` calls raise (a wrapped C++ object that has
  been deleted raises `RuntimeError` on any method call, which is exactly
  what the source's `try/except` blocks guard against).
* `Inst` models the mutable attribute state of one `MayaOutliner` object:
  `dialog`, `webview`/`api`/`auroraview` (presence of the reference,
  i.e. "is not None"), the `callback_ids` list, `_singleton_key`, and the
  `_is_closing` re-entrancy flag.
* `World` models the process state: a heap of instances (Python object
  identity becomes a heap index) plus the class-level registry
  `MayaOutliner._instances` as an association list from key to heap index.
* `closeInst` embeds `MayaOutliner.close`, `removeFromRegistry` embeds
  `MayaOutliner._remove_from_registry`, `getOrCreateSingleton` embeds
  `MayaOutliner._get_or_create_singleton`, `recycleEvict` embeds the
  identity-checked eviction inlined in `_get_or_create_singleton`.
* `WV2State`/`wv2Close` embed `MayaOutlinerWV2.close` from
  `maya_outliner_webview2.py`.
* Operations additionally return a trace (`List Ev`) of the externally
  observable steps they performed, in the order the source performs them.
-/

namespace MayaOutlinerModel

/-- State of the Qt dialog as observed by the lifecycle code. `visible` is
the live answer `isVisible()` would give; `isVisibleRaises` / `closeRaises`
record whether those calls raise (e.g. deleted wrapped C++ object). -/
structure Dialog where
  visible : Bool
  isVisibleRaises : Bool
  closeRaises : Bool
deriving DecidableEq, Repr

/-- Attribute state of one `MayaOutliner` instance. Boolean fields model
"the attribute is not None". -/
structure Inst where
  dialog : Option Dialog
  webview : Bool
  api : Bool
  auroraview : Bool
  callback_ids : List Nat
  singleton_key : Option String
  is_closing : Bool
deriving DecidableEq, Repr

/-- Default used for out-of-range heap reads (never reached in the claims,
which carry explicit bounds). -/
def defaultInst : Inst :=
  { dialog := none, webview := false, api := false, auroraview := false,
    callback_ids := [], singleton_key := none, is_closing := false }

/-- Process state: the heap of `MayaOutliner` objects and the class-level
singleton registry `MayaOutliner._instances` (a Python dict, embedded as an
association list with unique keys). -/
structure World where
  heap : List Inst
  instances : List (String × Nat)
deriving DecidableEq, Repr

/-- Observable steps emitted by the close paths and the registry, in
source order. -/
inductive Ev where
  | cleanupCallbacks
  | dialogClose
  | dialogCloseFail
  | clearRefs
  | registryEvict (key : String)
  | factoryInvoked
  | teardownWatchers
  | dispose
  | disposeFail
  | clearHandle
  | containerClose
deriving DecidableEq, Repr

/-- Number of `Ev.cleanupCallbacks` events in a trace (executions of the
Maya-callback removal step of the cleanup protocol). -/
def countCleanups (l : List Ev) : Nat :=
  (l.filter (fun e => decide (e = Ev.cleanupCallbacks))).length

/-- Number of `Ev.factoryInvoked` events in a trace. -/
def countFactory (l : List Ev) : Nat :=
  (l.filter (fun e => decide (e = Ev.factoryInvoked))).length

/-- Python dict lookup `instances[key]` (as an association list). -/
def lookupKey (l : List (String × Nat)) (k : String) : Option Nat :=
  match l.find? (fun p => p.1 == k) with
  | some p => some p.2
  | none => none

/-- Python dict `del instances[key]`. -/
def eraseKey (l : List (String × Nat)) (k : String) : List (String × Nat) :=
  l.filter (fun p => p.1 != k)

/-- Read the instance at heap index `i`. -/
def getInst (w : World) (i : Nat) : Inst :=
  w.heap.getD i defaultInst

/-- Overwrite the instance at heap index `i` (mutation of the Python
object all references alias). -/
def setInst (w : World) (i : Nat) (s : Inst) : World :=
  { w with heap := w.heap.set i s }

/-- `MayaOutliner._remove_from_registry` (maya_outliner.py:728-732):
`if self._singleton_key and self._singleton_key in self._instances: del
self._instances[self._singleton_key]`. Note it deletes the key whenever it
is present, with no check that the stored instance is `self`; the Python
truthiness test also skips an empty-string key. -/
def removeFromRegistry (w : World) (i : Nat) : World × List Ev :=
  match (getInst w i).singleton_key with
  | some k =>
      if k != "" && (lookupKey w.instances k).isSome then
        ({ w with instances := eraseKey w.instances k }, [Ev.registryEvict k])
      else (w, [])
  | none => (w, [])

/-- `MayaOutliner.close` (maya_outliner.py:866-905).
Branches, in source order: the `_is_closing` re-entrancy guard; the
"Nothing to close" early return (dialog and webview both None) which still
calls `_remove_from_registry`; otherwise `_is_closing = True`,
`cleanup_callbacks()` (whose per-callback try/except never raises),
`self.dialog.close()` if the dialog is set — an exception there is caught
by the method-wide `except` so the reference clearing and registry removal
are skipped, and the `finally` resets `_is_closing` — else on success the
dialog/auroraview/webview/api references are cleared,
`_remove_from_registry()` runs, and `finally` resets `_is_closing`.
The transient `_is_closing = True` window is collapsed: this model is
sequential, so only the net effect (reset in `finally`) is visible. -/
def closeInst (w : World) (i : Nat) : World × List Ev :=
  let s := getInst w i
  if s.is_closing then (w, [])
  else if s.dialog = none ∧ s.webview = false then
    removeFromRegistry w i
  else
    match s.dialog with
    | some d =>
        if d.closeRaises then
          (setInst w i { s with callback_ids := [], is_closing := false },
           [Ev.cleanupCallbacks, Ev.dialogCloseFail])
        else
          let s2 : Inst :=
            { s with callback_ids := [], dialog := none, auroraview := false,
                     webview := false, api := false, is_closing := false }
          let r := removeFromRegistry (setInst w i s2) i
          (r.1, [Ev.cleanupCallbacks, Ev.dialogClose, Ev.clearRefs] ++ r.2)
    | none =>
        let s2 : Inst :=
          { s with callback_ids := [], auroraview := false,
                   webview := false, api := false, is_closing := false }
        let r := removeFromRegistry (setInst w i s2) i
        (r.1, [Ev.cleanupCallbacks, Ev.clearRefs] ++ r.2)

/-- The liveness check of `_get_or_create_singleton`
(maya_outliner.py:696-709): `dialog_visible` is the `isVisible()` answer
with an exception mapped to `False`, and the instance is alive iff
`webview is not None and dialog_visible`. -/
def isAlive (s : Inst) : Bool :=
  let dialog_visible :=
    match s.dialog with
    | none => false
    | some d => if d.isVisibleRaises then false else d.visible
  s.webview && dialog_visible

/-- A `factory_fn` passed to `_get_or_create_singleton`: it either raises,
or builds a fresh instance with the given attribute state. -/
inductive Factory where
  | raises
  | creates (spec : Inst)
deriving DecidableEq, Repr

/-- The creation tail of `_get_or_create_singleton`
(maya_outliner.py:722-726): `instance = factory_fn()` (an exception
propagates), `instance._singleton_key = singleton_key`,
`cls._instances[singleton_key] = instance`, `return instance`. -/
def runFactory (w : World) (k : String) (f : Factory) :
    Except Unit (World × Nat × List Ev) :=
  match f with
  | Factory.raises => Except.error ()
  | Factory.creates spec =>
      let i := w.heap.length
      let inst := { spec with singleton_key := some k }
      Except.ok
        ({ heap := w.heap ++ [inst], instances := (k, i) :: eraseKey w.instances k },
         i, [Ev.factoryInvoked])

/-- The identity-checked eviction inlined in `_get_or_create_singleton`
(maya_outliner.py:718-719): `if singleton_key in cls._instances and
cls._instances[singleton_key] is existing: del cls._instances[singleton_key]`. -/
def recycleEvict (w : World) (k : String) (i : Nat) : World :=
  if lookupKey w.instances k = some i then
    { w with instances := eraseKey w.instances k }
  else w

/-- `MayaOutliner._get_or_create_singleton` (maya_outliner.py:674-726):
reuse a registered instance that passes the liveness check; otherwise
best-effort `existing.close()` (which itself never raises: its body is
wrapped in try/except, and the call site adds another), identity-checked
eviction, then the factory tail. -/
def getOrCreateSingleton (w : World) (k : String) (f : Factory) :
    Except Unit (World × Nat × List Ev) :=
  match lookupKey w.instances k with
  | none => runFactory w k f
  | some i =>
      if isAlive (getInst w i) then Except.ok (w, i, [])
      else
        let p := closeInst w i
        let w2 := recycleEvict p.1 k i
        Except.map (fun q => (q.1, q.2.1, p.2 ++ q.2.2)) (runFactory w2 k f)

/-- State of one `MayaOutlinerWV2` object (maya_outliner_webview2.py) as
its `close` method observes it: the native WebView2 handle (`_handle`),
whether `win_webview2_dispose` would raise, the Qt container dialog
(`_container`, never None in practice but guarded by `is not None`),
whether `container.close()` would raise, and the watcher id lists. -/
structure WV2State where
  handle : Option Nat
  disposeRaises : Bool
  containerPresent : Bool
  containerCloseRaises : Bool
  script_jobs : List Nat
  om_callbacks : List Nat
deriving DecidableEq, Repr

/-- `MayaOutlinerWV2.close` (maya_outliner_webview2.py:325-343), on the
Maya-available path: `_teardown_watchers()` first (all its failures are
swallowed; it clears both id lists); then, if `_handle is not None`, a
guarded `win_webview2_dispose(self._handle)` followed unconditionally by
`self._handle = None`; then, if `_container is not None`, a guarded
`self._container.close()`. Note `self._container` is never set to None. -/
def wv2Close (s : WV2State) : WV2State × List Ev :=
  let s1 := { s with script_jobs := [], om_callbacks := [] }
  let p2 :=
    match s1.handle with
    | some _ =>
        ({ s1 with handle := none },
         [if s.disposeRaises then Ev.disposeFail else Ev.dispose, Ev.clearHandle])
    | none => (s1, ([] : List Ev))
  let evs3 : List Ev := if s.containerPresent then [Ev.containerClose] else []
  (p2.1, Ev.teardownWatchers :: (p2.2 ++ evs3))

/-- The phase each event belongs to under claim C7's reading of the close
protocol: 0 = detach external callbacks, 1 = close or dispose the
window/native handle, 2 = clear references, 3 = evict the registry key.
`factoryInvoked` never occurs in a close trace; it is given phase 0. -/
def evPhaseClaim : Ev → Nat
  | Ev.cleanupCallbacks => 0
  | Ev.teardownWatchers => 0
  | Ev.dialogClose => 1
  | Ev.dialogCloseFail => 1
  | Ev.dispose => 1
  | Ev.disposeFail => 1
  | Ev.containerClose => 1
  | Ev.clearRefs => 2
  | Ev.clearHandle => 2
  | Ev.registryEvict _ => 3
  | Ev.factoryInvoked => 0

/-- The phase order the code actually follows: as `evPhaseClaim`, except
that the WV2 Qt-container close runs last, after the handle reference is
cleared. -/
def evPhaseCode : Ev → Nat
  | Ev.cleanupCallbacks => 0
  | Ev.teardownWatchers => 0
  | Ev.dialogClose => 1
  | Ev.dialogCloseFail => 1
  | Ev.dispose => 1
  | Ev.disposeFail => 1
  | Ev.clearRefs => 2
  | Ev.clearHandle => 2
  | Ev.registryEvict _ => 3
  | Ev.containerClose => 4
  | Ev.factoryInvoked => 5

/-- A trace respects a phase assignment when events appear in
non-decreasing phase order. -/
def phaseOrdered (phase : Ev → Nat) (l : List Ev) : Prop :=
  l.Pairwise (fun a b => phase a ≤ phase b)

instance (phase : Ev → Nat) (l : List Ev) : Decidable (phaseOrdered phase l) :=
  List.instDecidablePairwise l

/-- Modelled from the spec: the `EventTimer` consumed by
`MayaOutlinerV2._start_lifecycle_processing` (maya_outliner_v2.py:87-145)
is implemented in the external `auroraview` package, not under `src/`;
spec §3 and §4.3 describe it as a running/stopped flag, a monotonically
increasing tick counter, and a `check_window_validity` flag.
`closeInvocations` counts invocations of the registered close observers. -/
structure EventTimer where
  running : Bool
  tickCount : Nat
  checkWindowValidity : Bool
  closeInvocations : Nat
deriving DecidableEq, Repr

/-- Modelled from the spec: one tick of the EventTimer (spec §4.3). A tick
runs only while the running flag is set; it pumps (external, no model
state), increments the tick counter, and — when `check_window_validity`
is set and the handle validity query (`valid`) answers false — invokes
the close observers and stops the timer. -/
def tick (valid : Bool) (t : EventTimer) : EventTimer :=
  if t.running then
    let t1 := { t with tickCount := t.tickCount + 1 }
    if t1.checkWindowValidity && !valid then
      { t1 with running := false, closeInvocations := t1.closeInvocations + 1 }
    else t1
  else t

/-- Modelled from the spec: drive the EventTimer over a schedule of
handle-validity answers, one per elapsed interval; a stopped timer
schedules no further ticks (spec §4.3). -/
def runTimer : List Bool → EventTimer → EventTimer
  | [], t => t
  | v :: vs, t => runTimer vs (tick v t)

/-- JSON values as decoded by Python's `json.loads`: the message handler
in `MayaOutlinerWV2._register_handlers` only inspects the decoded value. -/
inductive JValue where
  | null
  | bool (b : Bool)
  | num (n : Int)
  | str (s : String)
  | arr (elems : List JValue)
  | obj (fields : List (String × JValue))

/-- Python truthiness of a decoded JSON value. -/
def JValue.truthy : JValue → Bool
  | JValue.null => false
  | JValue.bool b => b
  | JValue.num n => n != 0
  | JValue.str s => s != ""
  | JValue.arr xs => !xs.isEmpty
  | JValue.obj fs => !fs.isEmpty

/-- Whether a decoded JSON value is a dict. -/
def JValue.isObjB : JValue → Bool
  | JValue.obj _ => true
  | _ => false

/-- Python `dict.get(k)` on a decoded JSON object. -/
def jGet (fields : List (String × JValue)) (k : String) : Option JValue :=
  match fields.find? (fun p => p.1 == k) with
  | some p => some p.2
  | none => none

/-- The three outcomes of `data = json.loads(data_json) if data_json else
{}` wrapped in `try/except` (maya_outliner_webview2.py:125-128): the
string was empty (falsy), `json.loads` raised, or it decoded to a value.
The handler inspects only this outcome, so quantifying over `MsgInput`
covers every incoming message string. -/
inductive MsgInput where
  | empty
  | parseError (raw : String)
  | parsed (v : JValue)

/-- The value bound to `data` after the parse step of `on_msg`. -/
def decodeData : MsgInput → JValue
  | MsgInput.empty => JValue.obj []
  | MsgInput.parseError raw =>
      JValue.obj [("type", JValue.str "raw"), ("payload", JValue.str raw)]
  | MsgInput.parsed v => v

/-- The externally observable action `on_msg` performs. -/
inductive Action where
  | emitSceneUpdate
  | selectNode (node : JValue)
  | setVisibility (node : JValue) (visible : Bool)

/-- The uncaught Python exception `on_msg` can raise: `detail.get(...)`
on a non-dict `detail` raises `AttributeError`. -/
inductive PyError where
  | attributeError
deriving DecidableEq, Repr

/-- `data.get("type") != "event"` comparison: true only when the field is
the string `"event"` (Python equality between a string and any other
decoded value is false). -/
def typeIsEvent (fields : List (String × JValue)) : Bool :=
  match jGet fields "type" with
  | some (JValue.str t) => t == "event"
  | _ => false

/-- `ev == name` where `ev = data.get("event")`. -/
def evIs (fields : List (String × JValue)) (name : String) : Bool :=
  match jGet fields "event" with
  | some (JValue.str t) => t == name
  | _ => false

/-- `detail = data.get("detail", {})`. -/
def theDetail (fields : List (String × JValue)) : JValue :=
  (jGet fields "detail").getD (JValue.obj [])

/-- The event dispatch of `on_msg` (maya_outliner_webview2.py:136-155),
reached when `data` is a dict whose `"type"` is `"event"`. The
`select_node` / `set_visibility` branches call `detail.get(...)`, which
raises `AttributeError` when `detail` decoded to a non-dict value;
`detail.get("node_name")` defaults to `None` and the action is taken only
when that value is truthy; `bool(detail.get("visible", True))` is the
truthiness of the field, defaulting to true. -/
def dispatchEvent (fields : List (String × JValue)) :
    Except PyError (Option Action) :=
  if evIs fields "get_scene_hierarchy" then
    Except.ok (some Action.emitSceneUpdate)
  else if evIs fields "select_node" then
    match theDetail fields with
    | JValue.obj dfs =>
        let node := (jGet dfs "node_name").getD JValue.null
        if node.truthy then Except.ok (some (Action.selectNode node))
        else Except.ok none
    | _ => Except.error PyError.attributeError
  else if evIs fields "set_visibility" then
    match theDetail fields with
    | JValue.obj dfs =>
        let node := (jGet dfs "node_name").getD JValue.null
        let vis := ((jGet dfs "visible").getD (JValue.bool true)).truthy
        if node.truthy then Except.ok (some (Action.setVisibility node vis))
        else Except.ok none
    | _ => Except.error PyError.attributeError
  else Except.ok none

/-- The WebView2 message handler `on_msg`
(maya_outliner_webview2.py:124-155): parse (exceptions mapped to the
`raw` dict), return silently unless the decoded value is a dict whose
`"type"` field is `"event"`, then dispatch. -/
def on_msg (input : MsgInput) : Except PyError (Option Action) :=
  match decodeData input with
  | JValue.obj fields =>
      if typeIsEvent fields then dispatchEvent fields else Except.ok none
  | _ => Except.ok none

/-! ### Concrete fixtures used by witnesses and counterexamples -/

/-- A healthy visible dialog. -/
def liveDialog : Dialog :=
  { visible := true, isVisibleRaises := false, closeRaises := false }

/-- A dialog whose wrapped C++ object is gone: `isVisible()` and `close()`
both raise. -/
def raisyDialog : Dialog :=
  { visible := false, isVisibleRaises := true, closeRaises := true }

/-- Attribute state a successful `factory_fn` produces: `run()` has shown
the dialog and webview and registered one Maya callback. -/
def liveSpec : Inst :=
  { dialog := some liveDialog, webview := true, api := true, auroraview := true,
    callback_ids := [0], singleton_key := none, is_closing := false }

/-- A factory result that fails the liveness check (webview missing,
dialog absent). -/
def deadSpec : Inst :=
  { dialog := none, webview := false, api := true, auroraview := true,
    callback_ids := [], singleton_key := none, is_closing := false }

/-- The empty process state. -/
def emptyW : World := { heap := [], instances := [] }

/-- One live instance registered under `"outliner"`. -/
def wLive : World :=
  { heap := [{ liveSpec with singleton_key := some "outliner" }],
    instances := [("outliner", 0)] }

/-- One registered instance whose dialog raises on both `isVisible()` and
`close()` (stale entry with a failing close path). -/
def wRaisy : World :=
  { heap := [{ dialog := some raisyDialog, webview := true, api := true,
               auroraview := true, callback_ids := [0],
               singleton_key := some "outliner", is_closing := false }],
    instances := [("outliner", 0)] }

/-- Stale instance 0 (already closed, key still set) next to a fresher
instance 1 registered under the same key. -/
def w4c : World :=
  { heap := [{ dialog := none, webview := false, api := false, auroraview := false,
               callback_ids := [], singleton_key := some "outliner", is_closing := false },
             { liveSpec with singleton_key := some "outliner" }],
    instances := [("outliner", 1)] }

/-- The world reached from `emptyW` by `getOrCreateSingleton` with a
factory returning `deadSpec`. -/
def wDead : World :=
  { heap := [{ deadSpec with singleton_key := some "outliner" }],
    instances := [("outliner", 0)] }

/-- A WV2 window with a live native handle and its container present. -/
def wv2A : WV2State :=
  { handle := some 7, disposeRaises := false, containerPresent := true,
    containerCloseRaises := false, script_jobs := [1], om_callbacks := [2] }

/-- An EventTimer as `MayaOutlinerV2._start_lifecycle_processing` creates
and starts it: `check_window_validity=True`, fresh counters. The 16 ms
interval is the spacing of the validity schedule entries, not model
state. -/
def timer60 : EventTimer :=
  { running := true, tickCount := 0, checkWindowValidity := true,
    closeInvocations := 0 }

/-- A well-formed event message whose `detail` decodes to a number: the
input on which `on_msg` raises `AttributeError`. -/
def badMsg : MsgInput :=
  MsgInput.parsed (JValue.obj
    [("type", JValue.str "event"), ("event", JValue.str "select_node"),
     ("detail", JValue.num 5)])

/-- The registry maps every key to a live instance (the state invariant
claim C8 asserts). -/
def registryAllLiveB (w : World) : Bool :=
  w.instances.all (fun p => isAlive (getInst w p.2))

/-- The registry keys are pairwise distinct (a Python dict cannot map one
key to two instances; the embedding keeps this as an invariant). -/
def keysNodup (w : World) : Prop :=
  (w.instances.map Prod.fst).Nodup

/-- The attribute state `MayaOutliner.close` leaves behind when the
dialog-close step does not raise: callbacks removed, dialog/auroraview/
webview/api references cleared, `_is_closing` reset. -/
def closedInst (s : Inst) : Inst :=
  { s with
    callback_ids := [], dialog := none, auroraview := false,
    webview := false, api := false, is_closing := false }

/-- `Except` success test. -/
def isOkB {ε α : Type} : Except ε α → Bool
  | Except.ok _ => true
  | Except.error _ => false

/-! ### Helper lemmas -/

theorem getD_set_eq {α : Type} (l : List α) (i : Nat) (a d : α)
    (h : i < l.length) : (l.set i a).getD i d = a := by
  induction l generalizing i with
  | nil => simp at h
  | cons x xs ih =>
    cases i with
    | zero => rfl
    | succ n => simpa using ih n (by simpa using h)

theorem getD_append_length {α : Type} (l : List α) (a d : α) :
    (l ++ [a]).getD l.length d = a := by
  induction l with
  | nil => rfl
  | cons x xs ih => simpa only [List.cons_append, List.length_cons, List.getD_cons_succ] using ih

theorem getInst_setInst_eq (w : World) (i : Nat) (s : Inst)
    (h : i < w.heap.length) : getInst (setInst w i s) i = s :=
  getD_set_eq w.heap i s defaultInst h

theorem countCleanups_append (l1 l2 : List Ev) :
    countCleanups (l1 ++ l2) = countCleanups l1 + countCleanups l2 := by
  simp [countCleanups, List.filter_append]

theorem countFactory_append (l1 l2 : List Ev) :
    countFactory (l1 ++ l2) = countFactory l1 + countFactory l2 := by
  simp [countFactory, List.filter_append]

theorem removeFromRegistry_heap (w : World) (i : Nat) :
    ((removeFromRegistry w i).1).heap = w.heap := by
  unfold removeFromRegistry
  split
  · split <;> rfl
  · rfl

theorem removeFromRegistry_trace (w : World) (i : Nat) :
    (removeFromRegistry w i).2 = [] ∨
      ∃ k, (removeFromRegistry w i).2 = [Ev.registryEvict k] := by
  unfold removeFromRegistry
  split
  · split
    · exact Or.inr ⟨_, rfl⟩
    · exact Or.inl rfl
  · exact Or.inl rfl

theorem countCleanups_removeFromRegistry (w : World) (i : Nat) :
    countCleanups (removeFromRegistry w i).2 = 0 := by
  rcases removeFromRegistry_trace w i with h | ⟨k, h⟩ <;> simp [h, countCleanups]

theorem countFactory_removeFromRegistry (w : World) (i : Nat) :
    countFactory (removeFromRegistry w i).2 = 0 := by
  rcases removeFromRegistry_trace w i with h | ⟨k, h⟩ <;> simp [h, countFactory]

theorem closeInst_heap_length (w : World) (i : Nat) :
    ((closeInst w i).1).heap.length = w.heap.length := by
  simp only [closeInst]
  split
  · rfl
  · split
    · rw [removeFromRegistry_heap]
    · split
      · split
        · simp [setInst]
        · rw [removeFromRegistry_heap]
          simp [setInst]
      · rw [removeFromRegistry_heap]
        simp [setInst]

theorem countFactory_closeInst (w : World) (i : Nat) :
    countFactory (closeInst w i).2 = 0 := by
  simp only [closeInst]
  split
  · simp [countFactory]
  · split
    · exact countFactory_removeFromRegistry w i
    · split
      · split
        · simp [countFactory]
        · rw [countFactory_append, countFactory_removeFromRegistry]
          simp [countFactory]
      · rw [countFactory_append, countFactory_removeFromRegistry]
        simp [countFactory]

theorem recycleEvict_heap (w : World) (k : String) (i : Nat) :
    (recycleEvict w k i).heap = w.heap := by
  unfold recycleEvict
  split <;> rfl

theorem lookupKey_cons_self (l : List (String × Nat)) (k : String) (i : Nat) :
    lookupKey ((k, i) :: l) k = some i := by
  simp [lookupKey, List.find?_cons]

theorem lookupKey_eraseKey_self (l : List (String × Nat)) (k : String) :
    lookupKey (eraseKey l k) k = none := by
  induction l with
  | nil => rfl
  | cons p rest ih =>
    by_cases h : p.1 = k
    · simpa [eraseKey, List.filter_cons, h] using ih
    · simpa [eraseKey, List.filter_cons, h, lookupKey, List.find?_cons] using ih

theorem lookupKey_removeFromRegistry (w : World) (i : Nat) (k : String)
    (hk : (getInst w i).singleton_key = some k) (hne : k ≠ "") :
    lookupKey ((removeFromRegistry w i).1).instances k = none := by
  have hbne : (k != "") = true := bne_iff_ne.mpr hne
  cases h : lookupKey w.instances k with
  | none => simp [removeFromRegistry, hk, h]
  | some j =>
      simp only [removeFromRegistry, hk, h, Option.isSome_some, hbne,
        Bool.and_self, if_pos]
      exact lookupKey_eraseKey_self w.instances k

theorem keysNodup_eraseKey (l : List (String × Nat)) (k : String)
    (h : l.map Prod.fst |>.Nodup) : ((eraseKey l k).map Prod.fst).Nodup :=
  List.Nodup.sublist (List.Sublist.map Prod.fst (List.filter_sublist l)) h

theorem not_mem_keys_eraseKey (l : List (String × Nat)) (k : String) :
    k ∉ (eraseKey l k).map Prod.fst := by
  simp only [eraseKey, List.mem_map, List.mem_filter]
  rintro ⟨p, ⟨hp, hcond⟩, rfl⟩
  exact (bne_iff_ne.mp hcond) rfl

theorem keysNodup_insert (l : List (String × Nat)) (k : String) (i : Nat)
    (h : (l.map Prod.fst).Nodup) :
    (((k, i) :: eraseKey l k).map Prod.fst).Nodup := by
  simp only [List.map_cons]
  exact List.nodup_cons.mpr ⟨not_mem_keys_eraseKey l k, keysNodup_eraseKey l k h⟩

theorem keysNodup_removeFromRegistry (w : World) (i : Nat) (h : keysNodup w) :
    keysNodup (removeFromRegistry w i).1 := by
  unfold removeFromRegistry
  split
  · split
    · exact keysNodup_eraseKey _ _ h
    · exact h
  · exact h

theorem keysNodup_closeInst (w : World) (i : Nat) (h : keysNodup w) :
    keysNodup (closeInst w i).1 := by
  simp only [closeInst]
  split
  · exact h
  · split
    · exact keysNodup_removeFromRegistry w i h
    · split
      · split
        · exact h
        · exact keysNodup_removeFromRegistry _ i h
      · exact keysNodup_removeFromRegistry _ i h

theorem keysNodup_recycleEvict (w : World) (k : String) (i : Nat)
    (h : keysNodup w) : keysNodup (recycleEvict w k i) := by
  unfold recycleEvict
  split
  · exact keysNodup_eraseKey _ _ h
  · exact h

theorem closeInst_clears (w : World) (i : Nat)
    (hi : i < w.heap.length)
    (hcl : (getInst w i).is_closing = false)
    (hnr : ∀ d, (getInst w i).dialog = some d → d.closeRaises = false)
    (hopen : (getInst w i).dialog ≠ none ∨ (getInst w i).webview = true) :
    (getInst (closeInst w i).1 i).dialog = none ∧
    (getInst (closeInst w i).1 i).webview = false ∧
    (getInst (closeInst w i).1 i).api = false ∧
    (getInst (closeInst w i).1 i).is_closing = false ∧
    (getInst (closeInst w i).1 i).singleton_key = (getInst w i).singleton_key ∧
    countCleanups (closeInst w i).2 = 1 := by
  have hnotboth : ¬ ((getInst w i).dialog = none ∧ (getInst w i).webview = false) := by
    rcases hopen with h | h
    · exact fun hh => h hh.1
    · intro hh
      rw [h] at hh
      exact absurd hh.2 (by decide)
  have hgi : getInst (closeInst w i).1 i = closedInst (getInst w i) ∧
      countCleanups (closeInst w i).2 = 1 := by
    cases hd : (getInst w i).dialog with
    | some d =>
        have hr : d.closeRaises = false := hnr d hd
        have hceq : closeInst w i =
            ((removeFromRegistry (setInst w i (closedInst (getInst w i))) i).1,
             [Ev.cleanupCallbacks, Ev.dialogClose, Ev.clearRefs] ++
               (removeFromRegistry (setInst w i (closedInst (getInst w i))) i).2) := by
          simp [closeInst, closedInst, hcl, hnotboth, hd, hr]
        constructor
        · rw [hceq]
          unfold getInst
          rw [removeFromRegistry_heap]
          exact getD_set_eq w.heap i _ defaultInst hi
        · rw [hceq]
          simp only [countCleanups_append, countCleanups_removeFromRegistry]
          simp [countCleanups]
    | none =>
        have hw : (getInst w i).webview = true := by
          cases hwv : (getInst w i).webview
          · exact absurd ⟨hd, hwv⟩ hnotboth
          · rfl
        have hceq : closeInst w i =
            ((removeFromRegistry (setInst w i (closedInst (getInst w i))) i).1,
             [Ev.cleanupCallbacks, Ev.clearRefs] ++
               (removeFromRegistry (setInst w i (closedInst (getInst w i))) i).2) := by
          simp [closeInst, closedInst, hcl, hnotboth, hd, hw]
        constructor
        · rw [hceq]
          unfold getInst
          rw [removeFromRegistry_heap]
          exact getD_set_eq w.heap i _ defaultInst hi
        · rw [hceq]
          simp only [countCleanups_append, countCleanups_removeFromRegistry]
          simp [countCleanups]
  refine ⟨by rw [hgi.1]; rfl, by rw [hgi.1]; rfl, by rw [hgi.1]; rfl,
    by rw [hgi.1]; rfl, by rw [hgi.1]; rfl, hgi.2⟩

theorem closeInst_evicts (w : World) (i : Nat) (k : String)
    (hi : i < w.heap.length)
    (hcl : (getInst w i).is_closing = false)
    (hnr : ∀ d, (getInst w i).dialog = some d → d.closeRaises = false)
    (hk : (getInst w i).singleton_key = some k) (hne : k ≠ "") :
    lookupKey ((closeInst w i).1).instances k = none := by
  by_cases hboth : (getInst w i).dialog = none ∧ (getInst w i).webview = false
  · have hceq : closeInst w i = removeFromRegistry w i := by
      simp [closeInst, hcl, hboth]
    rw [hceq]
    exact lookupKey_removeFromRegistry w i k hk hne
  · cases hd : (getInst w i).dialog with
    | some d =>
        have hr : d.closeRaises = false := hnr d hd
        have hceq : closeInst w i =
            ((removeFromRegistry (setInst w i (closedInst (getInst w i))) i).1,
             [Ev.cleanupCallbacks, Ev.dialogClose, Ev.clearRefs] ++
               (removeFromRegistry (setInst w i (closedInst (getInst w i))) i).2) := by
          simp [closeInst, closedInst, hcl, hboth, hd, hr]
        rw [hceq]
        refine lookupKey_removeFromRegistry _ i k ?_ hne
        rw [getInst_setInst_eq w i _ hi]
        exact hk
    | none =>
        have hw : (getInst w i).webview = true := by
          cases hwv : (getInst w i).webview
          · exact absurd ⟨hd, hwv⟩ hboth
          · rfl
        have hceq : closeInst w i =
            ((removeFromRegistry (setInst w i (closedInst (getInst w i))) i).1,
             [Ev.cleanupCallbacks, Ev.clearRefs] ++
               (removeFromRegistry (setInst w i (closedInst (getInst w i))) i).2) := by
          simp [closeInst, closedInst, hcl, hboth, hd, hw]
        rw [hceq]
        refine lookupKey_removeFromRegistry _ i k ?_ hne
        rw [getInst_setInst_eq w i _ hi]
        exact hk

theorem runTimer_stopped (vs : List Bool) (t : EventTimer)
    (h : t.running = false) : runTimer vs t = t := by
  induction vs with
  | nil => rfl
  | cons v vs ih => simp [runTimer, tick, h, ih]

theorem runTimer_live_then_dead (n : Nat) (rest : List Bool) (t : EventTimer)
    (hr : t.running = true) (hc : t.checkWindowValidity = true) :
    runTimer (List.replicate n true ++ false :: rest) t =
      { running := false, tickCount := t.tickCount + n + 1,
        checkWindowValidity := t.checkWindowValidity,
        closeInvocations := t.closeInvocations + 1 } := by
  induction n generalizing t with
  | zero =>
      have htick : tick false t =
          { running := false, tickCount := t.tickCount + 1,
            checkWindowValidity := t.checkWindowValidity,
            closeInvocations := t.closeInvocations + 1 } := by
        simp [tick, hr, hc]
      simp only [List.replicate, List.nil_append, runTimer]
      rw [htick, runTimer_stopped _ _ rfl]
  | succ m ih =>
      have htick : tick true t = { t with tickCount := t.tickCount + 1 } := by
        simp [tick, hr, hc]
      have hstep : ∀ (v : Bool) (vs : List Bool) (t1 : EventTimer),
          runTimer (v :: vs) t1 = runTimer vs (tick v t1) := fun _ _ _ => rfl
      rw [List.replicate_succ, List.cons_append, hstep, htick,
        ih { t with tickCount := t.tickCount + 1 } hr hc]
      congr 1
      dsimp only
      omega

theorem isOkB_ok {ε α : Type} (a : α) : isOkB (Except.ok (ε := ε) a) = true := rfl

theorem isOkB_error {ε α : Type} (e : ε) : isOkB (Except.error (α := α) e) = false := rfl

theorem dispatchEvent_ok_of_detail (fields : List (String × JValue))
    (h : ∀ d, jGet fields "detail" = some d → d.isObjB = true) :
    isOkB (dispatchEvent fields) = true := by
  have hobj : ∃ dfs, theDetail fields = JValue.obj dfs := by
    cases hd : jGet fields "detail" with
    | none => exact ⟨[], by simp [theDetail, hd]⟩
    | some d =>
        have hob := h d hd
        cases d with
        | obj fs => exact ⟨fs, by simp [theDetail, hd]⟩
        | null => simp [JValue.isObjB] at hob
        | bool b => simp [JValue.isObjB] at hob
        | num n => simp [JValue.isObjB] at hob
        | str t => simp [JValue.isObjB] at hob
        | arr xs => simp [JValue.isObjB] at hob
  obtain ⟨dfs, hdfs⟩ := hobj
  unfold dispatchEvent
  rw [hdfs]
  simp only [apply_ite isOkB]
  simp [isOkB_ok]

theorem evIs_ne (fields : List (String × JValue)) (a b : String)
    (ha : evIs fields a = true) (hne : b ≠ a) : evIs fields b = false := by
  unfold evIs at ha ⊢
  cases hj : jGet fields "event" with
  | none => simp [hj]
  | some v =>
      cases v with
      | str t =>
          simp only [hj] at ha ⊢
          have hta : t = a := by simpa using ha
          subst hta
          exact beq_eq_false_iff_ne.mpr (fun hh => hne hh.symm)
      | null => simp [hj]
      | bool b1 => simp [hj]
      | num n => simp [hj]
      | arr xs => simp [hj]
      | obj fs => simp [hj]

theorem dispatchEvent_raises (fields : List (String × JValue)) (d : JValue)
    (hev : evIs fields "select_node" = true ∨ evIs fields "set_visibility" = true)
    (hd : jGet fields "detail" = some d) (hnd : d.isObjB = false) :
    dispatchEvent fields = Except.error PyError.attributeError := by
  have hdet : theDetail fields = d := by simp [theDetail, hd]
  have hnotobj : ∀ dfs, d ≠ JValue.obj dfs := by
    intro dfs hh
    rw [hh] at hnd
    simp [JValue.isObjB] at hnd
  rcases hev with hev | hev
  · have h1 : evIs fields "get_scene_hierarchy" = false :=
      evIs_ne fields "select_node" "get_scene_hierarchy" hev (by decide)
    simp only [dispatchEvent, h1, hev, hdet, Bool.false_eq_true, if_false, if_true]
  · have h1 : evIs fields "get_scene_hierarchy" = false :=
      evIs_ne fields "set_visibility" "get_scene_hierarchy" hev (by decide)
    have h2 : evIs fields "select_node" = false :=
      evIs_ne fields "set_visibility" "select_node" hev (by decide)
    simp only [dispatchEvent, h1, h2, hev, hdet, Bool.false_eq_true, if_false, if_true]

theorem on_msg_ok_of_detail (input : MsgInput)
    (h : ∀ fields, decodeData input = JValue.obj fields →
       ∀ d, jGet fields "detail" = some d → d.isObjB = true) :
    isOkB (on_msg input) = true := by
  unfold on_msg
  cases hD : decodeData input with
  | obj fields =>
      dsimp only
      split
      · exact dispatchEvent_ok_of_detail fields (h fields hD)
      · rfl
  | null => rfl
  | bool b => rfl
  | num n => rfl
  | str t => rfl
  | arr xs => rfl

theorem on_msg_action_shape (input : MsgInput) (a : Action)
    (h : on_msg input = Except.ok (some a)) :
    ∃ fields, decodeData input = JValue.obj fields ∧
      typeIsEvent fields = true ∧
      (evIs fields "get_scene_hierarchy" = true ∨
       evIs fields "select_node" = true ∨
       evIs fields "set_visibility" = true) := by
  unfold on_msg at h
  cases hD : decodeData input with
  | obj fields =>
      rw [hD] at h
      dsimp only at h
      by_cases ht : typeIsEvent fields
      · rw [if_pos ht] at h
        refine ⟨fields, rfl, ht, ?_⟩
        unfold dispatchEvent at h
        split at h
        · next hC => exact Or.inl hC
        · split at h
          · next hC => exact Or.inr (Or.inl hC)
          · split at h
            · next hC => exact Or.inr (Or.inr hC)
            · simp at h
      · rw [if_neg ht] at h
        simp at h
  | null => rw [hD] at h; simp at h
  | bool b => rw [hD] at h; simp at h
  | num n => rw [hD] at h; simp at h
  | str t => rw [hD] at h; simp at h
  | arr xs => rw [hD] at h; simp at h

theorem phaseOrdered_append_evict (l : List Ev) (w : World) (i : Nat)
    (hl : phaseOrdered evPhaseCode l)
    (hb : ∀ e ∈ l, evPhaseCode e ≤ 3) :
    phaseOrdered evPhaseCode (l ++ (removeFromRegistry w i).2) := by
  rcases removeFromRegistry_trace w i with h | ⟨k, h⟩
  · rw [h, List.append_nil]
    exact hl
  · rw [h]
    rw [phaseOrdered] at hl ⊢
    rw [List.pairwise_append]
    refine ⟨hl, List.pairwise_singleton _ _, ?_⟩
    intro a ha b hbm
    have hbk : b = Ev.registryEvict k := by simpa using hbm
    rw [hbk]
    exact hb a ha

theorem closeInst_nothing (w : World) (i : Nat)
    (hcl : (getInst w i).is_closing = false)
    (hd : (getInst w i).dialog = none)
    (hw : (getInst w i).webview = false) :
    closeInst w i = removeFromRegistry w i := by
  simp [closeInst, hcl, hd, hw]

theorem keysNodup_runFactory (w : World) (k : String) (f : Factory)
    (w2 : World) (i : Nat) (e : List Ev) (hnd : keysNodup w)
    (h : runFactory w k f = Except.ok (w2, i, e)) : keysNodup w2 := by
  cases f with
  | raises => simp [runFactory] at h
  | creates spec =>
      simp only [runFactory, Except.ok.injEq, Prod.mk.injEq] at h
      rw [← h.1]
      exact keysNodup_insert w.instances k w.heap.length hnd

/-! ### Claims -/

/-- C1: if the registry maps `k` to an instance whose liveness check fails,
`_get_or_create_singleton(k, factory)` first runs that stale instance's
close path, evicts `k`, invokes the factory exactly once, records the new
instance under `k` and returns it; the returned instance is distinct from
the stale one. The returned trace is the stale close trace followed by the
factory invocation, witnessing the order. -/
theorem C1_stale_recycle (w : World) (k : String) (i : Nat) (spec : Inst)
    (hi : i < w.heap.length)
    (hmem : lookupKey w.instances k = some i)
    (hdead : isAlive (getInst w i) = false) :
    ∃ w2,
      getOrCreateSingleton w k (Factory.creates spec) =
        Except.ok (w2, w.heap.length, (closeInst w i).2 ++ [Ev.factoryInvoked]) ∧
      countFactory ((closeInst w i).2 ++ [Ev.factoryInvoked]) = 1 ∧
      lookupKey w2.instances k = some w.heap.length ∧
      getInst w2 w.heap.length = { spec with singleton_key := some k } ∧
      w.heap.length ≠ i := by
  have hlen : (recycleEvict (closeInst w i).1 k i).heap.length = w.heap.length := by
    rw [recycleEvict_heap, closeInst_heap_length]
  have hmain : getOrCreateSingleton w k (Factory.creates spec) =
      Except.ok
        ({ heap := (recycleEvict (closeInst w i).1 k i).heap ++
             [{ spec with singleton_key := some k }],
           instances := (k, (recycleEvict (closeInst w i).1 k i).heap.length) ::
             eraseKey (recycleEvict (closeInst w i).1 k i).instances k },
         (recycleEvict (closeInst w i).1 k i).heap.length,
         (closeInst w i).2 ++ [Ev.factoryInvoked]) := by
    simp [getOrCreateSingleton, hmem, hdead, runFactory, Except.map]
  rw [hlen] at hmain
  refine ⟨_, hmain, ?_, lookupKey_cons_self _ k _, ?_, by omega⟩
  · rw [countFactory_append, countFactory_closeInst]
    simp [countFactory]
  · show ((recycleEvict (closeInst w i).1 k i).heap ++
      [{ spec with singleton_key := some k }]).getD w.heap.length defaultInst = _
    rw [← hlen]
    exact getD_append_length _ _ _

/-- Witness for C1: the concrete stale registered instance of `wRaisy`. -/
theorem C1_witness :
    ∃ w2,
      getOrCreateSingleton wRaisy "outliner" (Factory.creates liveSpec) =
        Except.ok (w2, wRaisy.heap.length,
          (closeInst wRaisy 0).2 ++ [Ev.factoryInvoked]) ∧
      countFactory ((closeInst wRaisy 0).2 ++ [Ev.factoryInvoked]) = 1 ∧
      lookupKey w2.instances "outliner" = some wRaisy.heap.length ∧
      getInst w2 wRaisy.heap.length =
        { liveSpec with singleton_key := some "outliner" } ∧
      wRaisy.heap.length ≠ 0 :=
  C1_stale_recycle wRaisy "outliner" 0 liveSpec (by decide) (by decide) (by decide)

/-- C2: a registered instance passing the liveness check is returned
unchanged with the factory not invoked; consequently two successive
`_get_or_create_singleton` calls with no intervening close return the
identical instance and invoke the factory exactly once in total (provided
the factory produced a live instance, as `run()` does by showing the
dialog). -/
theorem C2_reuse_idempotent :
    (∀ w k i f, lookupKey w.instances k = some i →
       isAlive (getInst w i) = true →
       getOrCreateSingleton w k f = Except.ok (w, i, [])) ∧
    (∀ w k spec w1 i1 e1, lookupKey w.instances k = none →
       isAlive spec = true →
       getOrCreateSingleton w k (Factory.creates spec) = Except.ok (w1, i1, e1) →
       getOrCreateSingleton w1 k (Factory.creates spec) = Except.ok (w1, i1, []) ∧
       countFactory e1 = 1) := by
  constructor
  · intro w k i f hmem halive
    simp [getOrCreateSingleton, hmem, halive]
  · intro w k spec w1 i1 e1 hnone halive h
    have hrun : getOrCreateSingleton w k (Factory.creates spec) =
        Except.ok
          ({ heap := w.heap ++ [{ spec with singleton_key := some k }],
             instances := (k, w.heap.length) :: eraseKey w.instances k },
           w.heap.length, [Ev.factoryInvoked]) := by
      simp [getOrCreateSingleton, hnone, runFactory]
    rw [hrun] at h
    injection h with h2
    rw [Prod.mk.injEq, Prod.mk.injEq] at h2
    obtain ⟨hw, hi1, he1⟩ := h2
    subst hw
    subst hi1
    subst he1
    have hget : getInst
        { heap := w.heap ++ [{ spec with singleton_key := some k }],
          instances := (k, w.heap.length) :: eraseKey w.instances k }
        w.heap.length = { spec with singleton_key := some k } := by
      show (w.heap ++ [{ spec with singleton_key := some k }]).getD
        w.heap.length defaultInst = _
      exact getD_append_length _ _ _
    constructor
    · have halive2 : isAlive (getInst
          { heap := w.heap ++ [{ spec with singleton_key := some k }],
            instances := (k, w.heap.length) :: eraseKey w.instances k }
          w.heap.length) = true := by
        rw [hget]
        exact halive
      simp [getOrCreateSingleton, lookupKey_cons_self, halive2]
    · simp [countFactory]

/-- Witness for C2: reusing the live registered instance of `wLive`
returns it unchanged with an empty trace (no factory invocation). -/
theorem C2_witness :
    getOrCreateSingleton wLive "outliner" (Factory.creates liveSpec) =
      Except.ok (wLive, 0, []) :=
  C2_reuse_idempotent.1 wLive "outliner" 0 (Factory.creates liveSpec)
    (by decide) (by decide)

/-- Counterexample to C3 as stated: on an instance whose `dialog.close()`
raises (`wRaisy`), two sequential `close()` calls each execute the cleanup
protocol — the exception is caught before the references are cleared, so
the second call does not short-circuit and the Maya-callback removal and
dialog-close attempt run twice, not once. -/
theorem C3_counterexample :
    countCleanups ((closeInst wRaisy 0).2 ++
      (closeInst (closeInst wRaisy 0).1 0).2) = 2 := by decide

/-- C3 amended: a close request while a close is in progress
(`_is_closing` set) is a no-op returning immediately; and when the
dialog-close step does not raise, two sequential `close()` calls on an
open instance perform exactly one execution of the cleanup protocol (the
second call takes the "Nothing to close" early return). When
`dialog.close()` raises, the cleanup can run again on a later call. -/
theorem C3_amended_close_once :
    (∀ w i, (getInst w i).is_closing = true → closeInst w i = (w, [])) ∧
    (∀ w i, i < w.heap.length →
       (getInst w i).is_closing = false →
       (∀ d, (getInst w i).dialog = some d → d.closeRaises = false) →
       ((getInst w i).dialog ≠ none ∨ (getInst w i).webview = true) →
       countCleanups ((closeInst w i).2 ++
         (closeInst (closeInst w i).1 i).2) = 1) := by
  constructor
  · intro w i h
    simp [closeInst, h]
  · intro w i hi hcl hnr hopen
    obtain ⟨hdlg, hwv, _, hislc, _, hcount⟩ := closeInst_clears w i hi hcl hnr hopen
    rw [countCleanups_append, hcount]
    rw [closeInst_nothing _ i hislc hdlg hwv, countCleanups_removeFromRegistry]

/-- Witness for C3 (amended) at the live instance of `wLive`: one cleanup
execution across two sequential closes. -/
theorem C3_witness :
    countCleanups ((closeInst wLive 0).2 ++
      (closeInst (closeInst wLive 0).1 0).2) = 1 :=
  C3_amended_close_once.2 wLive 0 (by decide) (by decide)
    (by intro d hd
        rw [show (getInst wLive 0).dialog = some liveDialog from rfl] at hd
        cases hd
        rfl)
    (by decide)

/-- Counterexample to C4 as stated: in `w4c` the key `"outliner"` stores
the fresher instance 1, yet `_remove_from_registry` requested by the stale
instance 0 evicts it — the identity check claimed for the removal
operation is absent, so the fresher registration is clobbered. -/
theorem C4_counterexample :
    lookupKey w4c.instances "outliner" = some 1 ∧
    (getInst w4c 0).singleton_key = some "outliner" ∧
    lookupKey ((removeFromRegistry w4c 0).1).instances "outliner" = none := by
  decide

/-- C4 amended: `_remove_from_registry` evicts its instance's (non-empty)
key whenever the key is present, regardless of which instance the registry
stores; the identity-checked eviction exists only in the recycling step
inlined in `_get_or_create_singleton`, which leaves a fresher registration
in place. -/
theorem C4_amended_removal :
    (∀ w i k, (getInst w i).singleton_key = some k → k ≠ "" →
       lookupKey ((removeFromRegistry w i).1).instances k = none) ∧
    (∀ w k i j, lookupKey w.instances k = some j → j ≠ i →
       recycleEvict w k i = w) := by
  constructor
  · intro w i k hk hne
    exact lookupKey_removeFromRegistry w i k hk hne
  · intro w k i j hmem hne
    unfold recycleEvict
    rw [if_neg]
    rw [hmem]
    simp
    exact hne

/-- Witness for C4 (amended): the unconditional eviction at `wLive`, and
the identity-checked recycling eviction leaving the fresher instance 1 of
`w4c` registered when requested for instance 0. -/
theorem C4_witness :
    lookupKey ((removeFromRegistry wLive 0).1).instances "outliner" = none ∧
    recycleEvict w4c "outliner" 0 = w4c :=
  ⟨C4_amended_removal.1 wLive 0 "outliner" (by decide) (by decide),
   C4_amended_removal.2 w4c "outliner" 0 1 (by decide) (by decide)⟩

/-- C5: a factory exception propagates out of `_get_or_create_singleton`
unchanged (whenever the factory is reached: key unmapped, or mapped to an
instance failing the liveness check), while exceptions from the liveness
check (`isVisibleRaises`, mapped to not-visible) and from the stale close
path (`closeRaises`, swallowed inside `close`) never make the call fail:
with a succeeding factory the call returns `ok` from every state,
including states whose dialog raises on both calls. -/
theorem C5_failure_policy :
    (∀ w k spec,
       isOkB (getOrCreateSingleton w k (Factory.creates spec)) = true) ∧
    (∀ w k i, lookupKey w.instances k = some i →
       isAlive (getInst w i) = false →
       getOrCreateSingleton w k Factory.raises = Except.error ()) ∧
    (∀ w k, lookupKey w.instances k = none →
       getOrCreateSingleton w k Factory.raises = Except.error ()) := by
  refine ⟨?_, ?_, ?_⟩
  · intro w k spec
    cases hmem : lookupKey w.instances k with
    | none => simp [getOrCreateSingleton, hmem, runFactory, isOkB_ok]
    | some i =>
        by_cases halive : isAlive (getInst w i) = true
        · simp [getOrCreateSingleton, hmem, halive, isOkB_ok]
        · simp [getOrCreateSingleton, hmem, halive, runFactory,
            Except.map, isOkB_ok]
  · intro w k i hmem hdead
    simp [getOrCreateSingleton, hmem, hdead, runFactory, Except.map]
  · intro w k hnone
    simp [getOrCreateSingleton, hnone, runFactory]

/-- Witness for C5 at `wRaisy` (whose registered instance's dialog raises
on both `isVisible()` and `close()`): a raising factory propagates, a
succeeding factory still returns ok. -/
theorem C5_witness :
    getOrCreateSingleton wRaisy "outliner" Factory.raises = Except.error () ∧
    isOkB (getOrCreateSingleton wRaisy "outliner" (Factory.creates liveSpec)) = true :=
  ⟨C5_failure_policy.2.1 wRaisy "outliner" 0 (by decide) (by decide),
   C5_failure_policy.1 wRaisy "outliner" liveSpec⟩

/-- Counterexample to C6 as stated: closing the `wRaisy` instance (whose
`dialog.close()` raises) completes without propagating, yet leaves the
webview and dialog references set and the registry entry in place — the
references are not cleared on every close completion. -/
theorem C6_counterexample :
    (getInst (closeInst wRaisy 0).1 0).webview = true ∧
    (getInst (closeInst wRaisy 0).1 0).dialog ≠ none ∧
    lookupKey ((closeInst wRaisy 0).1).instances "outliner" = some 0 := by
  decide

/-- C6 amended: the WV2 close always clears the native handle, even when
the dispose call fails, but never clears the container reference; the
MayaOutliner close clears dialog/webview/api and evicts the instance's
(non-empty) key exactly when the dialog-close step does not raise — an
exception there is caught yet skips the clearing and eviction. -/
theorem C6_amended_cleared :
    (∀ s : WV2State, ((wv2Close s).1).handle = none ∧
       ((wv2Close s).1).containerPresent = s.containerPresent) ∧
    (∀ w i, i < w.heap.length →
       (getInst w i).is_closing = false →
       (∀ d, (getInst w i).dialog = some d → d.closeRaises = false) →
       ((getInst w i).dialog ≠ none ∨ (getInst w i).webview = true) →
       (getInst (closeInst w i).1 i).dialog = none ∧
       (getInst (closeInst w i).1 i).webview = false ∧
       (getInst (closeInst w i).1 i).api = false ∧
       (∀ k, (getInst w i).singleton_key = some k → k ≠ "" →
          lookupKey ((closeInst w i).1).instances k = none)) := by
  constructor
  · intro s
    cases hh : s.handle <;> simp [wv2Close, hh]
  · intro w i hi hcl hnr hopen
    obtain ⟨hdlg, hwv, hapi, _, _, _⟩ := closeInst_clears w i hi hcl hnr hopen
    exact ⟨hdlg, hwv, hapi,
      fun k hk hne => closeInst_evicts w i k hi hcl hnr hk hne⟩

/-- Witness for C6 (amended): the `wLive` instance after a clean close,
and the WV2 state `wv2A` after its close. -/
theorem C6_witness :
    ((wv2Close wv2A).1).handle = none ∧
    (getInst (closeInst wLive 0).1 0).dialog = none ∧
    (getInst (closeInst wLive 0).1 0).webview = false ∧
    lookupKey ((closeInst wLive 0).1).instances "outliner" = none := by
  have h2 := C6_amended_cleared.2 wLive 0 (by decide) (by decide)
    (by intro d hd
        rw [show (getInst wLive 0).dialog = some liveDialog from rfl] at hd
        cases hd
        rfl)
    (by decide)
  exact ⟨(C6_amended_cleared.1 wv2A).1, h2.1, h2.2.1,
    h2.2.2.2 "outliner" (by decide) (by decide)⟩

/-- Counterexample to C7 as stated: the WV2 close trace is teardown of
watchers, native dispose, clearing of the handle reference, and only then
the Qt container close — a close step follows a reference-clearing step,
so the claimed phase order (detach, close/dispose, clear, evict) is
violated. -/
theorem C7_counterexample :
    (wv2Close wv2A).2 =
      [Ev.teardownWatchers, Ev.dispose, Ev.clearHandle, Ev.containerClose] ∧
    ¬ phaseOrdered evPhaseClaim (wv2Close wv2A).2 := by
  constructor
  · decide
  · decide

/-- C7 amended: both close paths detach external callbacks first and
dispose/close the window or native handle before clearing references and
evicting the registry key, except that the WV2 Qt container close runs
last, after the handle reference is cleared: every close trace of either
path is ordered by the code's phase order `evPhaseCode`, in which the
container close is final. -/
theorem C7_amended_order :
    (∀ w i, phaseOrdered evPhaseCode (closeInst w i).2) ∧
    (∀ s, phaseOrdered evPhaseCode (wv2Close s).2) := by
  constructor
  · intro w i
    simp only [closeInst]
    split
    · simp [phaseOrdered]
    · split
      · rcases removeFromRegistry_trace w i with h | ⟨k, h⟩ <;>
          simp [phaseOrdered, h]
      · split
        · split
          · show phaseOrdered evPhaseCode [Ev.cleanupCallbacks, Ev.dialogCloseFail]
            decide
          · exact phaseOrdered_append_evict
              [Ev.cleanupCallbacks, Ev.dialogClose, Ev.clearRefs] _ i
              (by decide) (by decide)
        · exact phaseOrdered_append_evict
            [Ev.cleanupCallbacks, Ev.clearRefs] _ i (by decide) (by decide)
  · intro s
    cases hh : s.handle <;> cases hdr : s.disposeRaises <;>
      cases hcp : s.containerPresent <;>
        simp [wv2Close, hh, hdr, hcp, phaseOrdered, evPhaseCode]

/-- Counterexample to C8 as stated: one `get_or_create` call from the
empty registry with a factory returning a non-live instance leaves the
registry mapping `"outliner"` to an instance that fails the liveness
check — presence in the map does not imply liveness. (The same state
arises when the operator closes a registered window between calls.) -/
theorem C8_counterexample :
    getOrCreateSingleton emptyW "outliner" (Factory.creates deadSpec) =
      Except.ok (wDead, 0, [Ev.factoryInvoked]) ∧
    registryAllLiveB wDead = false := ⟨rfl, by decide⟩

/-- C8 amended: the registry maps each key to at most one instance
(key-uniqueness is preserved by close and get_or_create), and
`get_or_create` never trusts a dead entry: whenever it returns without
invoking the factory (empty trace), the returned instance is the
registered one and passes the liveness check; a dead entry may sit in the
map between calls but is recycled, never returned, on the next call. -/
theorem C8_amended_invariant :
    (∀ w i, keysNodup w → keysNodup (closeInst w i).1) ∧
    (∀ w k f w2 i e, keysNodup w →
       getOrCreateSingleton w k f = Except.ok (w2, i, e) → keysNodup w2) ∧
    (∀ w k f w2 i, getOrCreateSingleton w k f = Except.ok (w2, i, []) →
       w2 = w ∧ lookupKey w.instances k = some i ∧
       isAlive (getInst w i) = true) := by
  refine ⟨keysNodup_closeInst, ?_, ?_⟩
  · intro w k f w2 i e hnd h
    cases hmem : lookupKey w.instances k with
    | none =>
        simp only [getOrCreateSingleton, hmem] at h
        exact keysNodup_runFactory w k f w2 i e hnd h
    | some j =>
        by_cases halive : isAlive (getInst w j) = true
        · simp only [getOrCreateSingleton, hmem, halive, if_true] at h
          rw [Except.ok.injEq, Prod.mk.injEq] at h
          rw [← h.1]
          exact hnd
        · simp only [getOrCreateSingleton, hmem] at h
          rw [if_neg halive] at h
          cases f with
          | raises => simp [runFactory, Except.map] at h
          | creates spec =>
              simp only [runFactory, Except.map, Except.ok.injEq,
                Prod.mk.injEq] at h
              rw [← h.1]
              exact keysNodup_insert _ k _
                (keysNodup_recycleEvict _ k j (keysNodup_closeInst w j hnd))
  · intro w k f w2 i h
    cases hmem : lookupKey w.instances k with
    | none =>
        cases f with
        | raises => simp [getOrCreateSingleton, hmem, runFactory] at h
        | creates spec =>
            simp only [getOrCreateSingleton, hmem, runFactory,
              Except.ok.injEq, Prod.mk.injEq] at h
            exact absurd h.2.2 (by simp)
    | some j =>
        by_cases halive : isAlive (getInst w j) = true
        · simp only [getOrCreateSingleton, hmem, halive, if_true,
            Except.ok.injEq, Prod.mk.injEq] at h
          obtain ⟨hw, hj, _⟩ := h
          subst hj
          subst hw
          exact ⟨rfl, rfl, halive⟩
        · simp only [getOrCreateSingleton, hmem] at h
          rw [if_neg halive] at h
          cases f with
          | raises => simp [runFactory, Except.map] at h
          | creates spec =>
              simp only [runFactory, Except.map, Except.ok.injEq,
                Prod.mk.injEq] at h
              exact absurd h.2.2 (by simp)

/-- Witness for C8 (amended): the reuse path at `wLive` returns the
registered live instance. -/
theorem C8_witness :
    wLive = wLive ∧ lookupKey wLive.instances "outliner" = some 0 ∧
    isAlive (getInst wLive 0) = true :=
  C8_amended_invariant.2.2 wLive "outliner" (Factory.creates liveSpec)
    wLive 0 rfl

/-- C9 (spec-modelled, the EventTimer lives in the external `auroraview`
package): a running EventTimer with `check_window_validity` set, driven
over a schedule on which the handle is valid for `n` intervals and then
invalid, invokes the close observers exactly once, stops itself, and
schedules no further ticks: the tick counter ends at exactly `n + 1` more
than it started, however long the schedule continues. -/
theorem C9_timer_close_once (n : Nat) (rest : List Bool) (t : EventTimer)
    (hr : t.running = true) (hc : t.checkWindowValidity = true) :
    (runTimer (List.replicate n true ++ false :: rest) t).closeInvocations =
      t.closeInvocations + 1 ∧
    (runTimer (List.replicate n true ++ false :: rest) t).running = false ∧
    (runTimer (List.replicate n true ++ false :: rest) t).tickCount =
      t.tickCount + n + 1 := by
  rw [runTimer_live_then_dead n rest t hr hc]
  exact ⟨rfl, rfl, rfl⟩

/-- Witness for C9: handle invalidation after tick 3 on a fresh timer:
`on_close` fires once, the timer stops, and the two remaining scheduled
intervals produce no ticks. -/
theorem C9_witness :
    (runTimer (List.replicate 3 true ++ false :: [true, true])
      timer60).closeInvocations = timer60.closeInvocations + 1 ∧
    (runTimer (List.replicate 3 true ++ false :: [true, true])
      timer60).running = false ∧
    (runTimer (List.replicate 3 true ++ false :: [true, true])
      timer60).tickCount = timer60.tickCount + 3 + 1 :=
  C9_timer_close_once 3 [true, true] timer60 rfl rfl

/-- Counterexample to C10 as stated: the message
`{"type": "event", "event": "select_node", "detail": 5}` is decoded
successfully, but `detail.get("node_name")` is attempted on the number 5
and the handler raises `AttributeError` instead of returning. -/
theorem C10_counterexample :
    on_msg badMsg = Except.error PyError.attributeError := rfl

/-- C10 amended: the handler returns without raising for every message
whose decoded `detail` field is absent or is a dict (in particular for
the empty string, malformed JSON, non-dict JSON, and every non-event
message); it raises `AttributeError` exactly on event messages named
`select_node`/`set_visibility` whose `detail` decodes to a non-dict
value; and it performs an action only when the decoded value is a dict
whose `type` is `"event"` with event name `get_scene_hierarchy`,
`select_node`, or `set_visibility`. -/
theorem C10_amended_handler :
    (∀ input : MsgInput,
       (∀ fields, decodeData input = JValue.obj fields →
          ∀ d, jGet fields "detail" = some d → d.isObjB = true) →
       isOkB (on_msg input) = true) ∧
    (∀ fields d,
       typeIsEvent fields = true →
       (evIs fields "select_node" = true ∨ evIs fields "set_visibility" = true) →
       jGet fields "detail" = some d → d.isObjB = false →
       on_msg (MsgInput.parsed (JValue.obj fields)) =
         Except.error PyError.attributeError) ∧
    (∀ input a, on_msg input = Except.ok (some a) →
       ∃ fields, decodeData input = JValue.obj fields ∧
         typeIsEvent fields = true ∧
         (evIs fields "get_scene_hierarchy" = true ∨
          evIs fields "select_node" = true ∨
          evIs fields "set_visibility" = true)) := by
  refine ⟨on_msg_ok_of_detail, ?_, on_msg_action_shape⟩
  intro fields d hty hev hd hnd
  have hred : on_msg (MsgInput.parsed (JValue.obj fields)) =
      dispatchEvent fields := by
    simp [on_msg, decodeData, hty]
  rw [hred]
  exact dispatchEvent_raises fields d hev hd hnd

/-- Witness for C10 (amended) at concrete messages: a
`get_scene_hierarchy` event returns ok, and the `badMsg` shape raises. -/
theorem C10_witness :
    isOkB (on_msg (MsgInput.parsed (JValue.obj
      [("type", JValue.str "event"),
       ("event", JValue.str "get_scene_hierarchy")]))) = true ∧
    on_msg (MsgInput.parsed (JValue.obj
      [("type", JValue.str "event"), ("event", JValue.str "select_node"),
       ("detail", JValue.num 5)])) = Except.error PyError.attributeError :=
  ⟨C10_amended_handler.1 _
    (fun fields hf d hd => by
      injection hf with hf2
      subst hf2
      exact Option.noConfusion hd),
   C10_amended_handler.2.1 _ (JValue.num 5) rfl (Or.inl rfl) rfl rfl⟩

end MayaOutlinerModel
